import Mathlib

/-!
Verification of the chunk-orchestration engine in
`source/countAndProcessRegions.py` (LECIF repository).

The Python program is shallowly embedded: pure computations become Lean
functions over `Nat` / `Int` / `String`; decimal formatting of integers
(Python `str(i)` inside f-strings) is modelled by `natToDecimalString` /
`intToDecimalString`, which render base-10 digits the way CPython does;
emitted shell scripts are modelled as the exact string the Python code
writes (concatenation of the `f.write` payloads, with `\x7b` / `\x7d`
denoting the literal brace characters of the shell text); file-system
effects relevant to the PID-marker protocol become explicit event lists
over a `Finset String` of existing marker files.  `sys.exit` and uncaught
exceptions become explicit exit-code results.
-/

/-! ### Decimal rendering (model of Python `str` on integers)

CPython formats a non-negative integer in base 10, most significant digit
first.  `toDigitsCore` is fuel-based so that the kernel can evaluate it;
`natDigitsRec` is the fuel-free specification used in proofs.
-/

/-- The character for one decimal digit (`d < 10`). -/
def natDigitChar (d : ℕ) : Char :=
  match d with
  | 0 => '0' | 1 => '1' | 2 => '2' | 3 => '3' | 4 => '4'
  | 5 => '5' | 6 => '6' | 7 => '7' | 8 => '8' | _ => '9'

/-- Fuel-based base-10 digit extraction, least significant digit peeled
first and consed onto the accumulator. -/
def toDigitsCore : ℕ → ℕ → List Char → List Char
  | 0, _, ds => ds
  | fuel + 1, n, ds =>
    let d := natDigitChar (n % 10)
    if n / 10 = 0 then d :: ds else toDigitsCore fuel (n / 10) (d :: ds)

/-- Decimal digit list of a natural number (`n + 1` fuel always suffices). -/
def natToDigitList (n : ℕ) : List Char := toDigitsCore (n + 1) n []

/-- Fuel-free specification of `natToDigitList`. -/
def natDigitsRec (n : ℕ) : List Char :=
  if _h : n < 10 then [natDigitChar n]
  else natDigitsRec (n / 10) ++ [natDigitChar (n % 10)]
decreasing_by
  exact Nat.div_lt_self (by omega) (by norm_num)

/-- Model of Python `str(n)` for a non-negative integer `n`. -/
def natToDecimalString (n : ℕ) : String := String.mk (natToDigitList n)

/-- Model of Python `str(z)` for an arbitrary integer `z`. -/
def intToDecimalString (z : ℤ) : String :=
  if z < 0 then "-" ++ natToDecimalString z.natAbs else natToDecimalString z.toNat

/-- Numeric value of one digit character. -/
def digitVal (c : Char) : ℕ := c.toNat - 48

/-- Numeric value of a most-significant-first digit list. -/
def digitListVal (ds : List Char) : ℕ := ds.foldl (fun acc c => 10 * acc + digitVal c) 0

/-- Model of Python `str.lower()` (per-character lowercasing). -/
def strLower (s : String) : String := String.mk (s.data.map Char.toLower)

/-- Model of the Python substring test `needle in hay` on the character
lists of the two strings. -/
def listContainsSub (needle : List Char) : List Char → Bool
  | [] => needle.isEmpty
  | c :: t => needle.isPrefixOf (c :: t) || listContainsSub needle t

/-! ### Partitioner

`main` computes (line 460 of `countAndProcessRegions.py`):
`num_chunks = math.ceil(num_regions / args.chunk_size)`.
Division by a zero chunk size raises `ZeroDivisionError` in Python, hence
the `Option`; otherwise the value is the exact ceiling of the rational
quotient (`num_regions` comes from `count_regions`, so it is a natural
number, while `argparse` allows any integer for `--chunk-size`). -/
def num_chunks? (num_regions : ℕ) (chunk_size : ℤ) : Option ℤ :=
  if chunk_size = 0 then none
  else some ⌈(num_regions : ℚ) / (chunk_size : ℚ)⌉

/-! ### CommandPlanner

`generate_commands` (lines 39-61) builds, for each ordinal
`i in range(1, num_chunks + 1)`, the `" ".join`-ed invocation string of
the per-chunk worker, whose output file is `f"{args.output_dir}/all_{i}.gz"`.
-/

/-- The shared configuration surface of `main` that `generate_commands`,
`create_shell_script` and `generate_combine_script` consume. -/
structure Args where
  region_filename : String
  cage_dir : String
  chromhmm_dir : String
  dnase_chipseq_dir : String
  rnaseq_dir : String
  chromhmm_num_states : ℤ
  cage_num_experiments : ℤ
  num_features : ℤ
  output_dir : String
  chunk_size : ℤ
  log_dir : String

/-- Per-chunk output path `f"{args.output_dir}/all_{i}.gz"` (line 54). -/
def output_path (args : Args) (i : ℕ) : String :=
  args.output_dir ++ "/all_" ++ natToDecimalString i ++ ".gz"

/-- The part of the joined command string before the `-o` output path:
pieces 1-9 of the `cmd` list (lines 44-53), joined with single spaces. -/
def command_head (args : Args) : String :=
  "python source/generateDataThreaded.py -p " ++ args.region_filename ++
  " -ca " ++ args.cage_dir ++
  " -ch " ++ args.chromhmm_dir ++
  " -dn " ++ args.dnase_chipseq_dir ++
  " -rn " ++ args.rnaseq_dir ++
  " -chn " ++ intToDecimalString args.chromhmm_num_states ++
  " -can " ++ intToDecimalString args.cage_num_experiments ++
  " -fn " ++ intToDecimalString args.num_features ++ " "

/-- The part of the joined command string after the output path:
pieces 11-13 (`-s`, `-c {chunk_size}`, `-i {i}`, lines 55-57). -/
def command_tail (args : Args) (i : ℕ) : String :=
  " -s -c " ++ intToDecimalString args.chunk_size ++ " -i " ++ natToDecimalString i

/-- The full `" ".join(cmd)` string appended for ordinal `i` (line 59). -/
def command_string (args : Args) (i : ℕ) : String :=
  command_head args ++ ("-o " ++ output_path args i) ++ command_tail args i

/-- `generate_commands`: one command string per ordinal in
`range(1, num_chunks + 1)`; for a non-positive `num_chunks` the Python
`range` is empty. -/
def generate_commands (args : Args) (num_chunks : ℤ) : List String :=
  (List.range' 1 num_chunks.toNat).map (command_string args)

/-! ### PID-marker protocol

`run_command` (lines 63-106) uses the fixed relative path
`f"pid/chunk_{chunk_id}.pid"`; the marker is created right after the child
is spawned (lines 81-82) and removed when the child has exited (lines
93-94) and equally on the exception path (lines 103-104).  The signal
handler of `run_commands_parallel` (lines 316-333) enumerates
`Path("pid").glob("chunk_*.pid")`, kills each recorded PID and deletes
the file.  Marker-directory contents are modelled as a `Finset String`
acted on by create/remove events. -/

/-- Marker path of `run_command`: `f"pid/chunk_{chunk_id}.pid"` (line 65). -/
def pid_file (chunk_id : ℕ) : String :=
  "pid/chunk_" ++ natToDecimalString chunk_id ++ ".pid"

/-- `Bool` test for a path matching the handler's glob
`pid/chunk_*.pid` (line 319). -/
def chunk_glob_match (p : String) : Bool :=
  "pid/chunk_".data.isPrefixOf p.data && ".pid".data.isSuffixOf p.data

/-- A marker-file creation or removal, as performed by the supervisor. -/
inductive FsEvent where
  | createMarker : String → FsEvent
  | removeMarker : String → FsEvent
deriving DecidableEq

/-- Effect of one event on the set of existing marker files (`os.remove`
and `Path.unlink` on a missing file are modelled by `Finset.erase`, which
is a no-op then; the exception path of `run_command` guards the removal
with `os.path.exists`, giving the same result). -/
def fs_step (s : Finset String) : FsEvent → Finset String
  | FsEvent.createMarker p => insert p s
  | FsEvent.removeMarker p => s.erase p

/-- Folding a whole event list over a marker-directory state. -/
def fs_run (evs : List FsEvent) (s : Finset String) : Finset String :=
  evs.foldl fs_step s

/-- Marker events of one completed `run_command` call for ordinal `i`:
create after spawn, remove after exit — on the normal path (success or
nonzero child exit) and on the `except Exception` path alike. -/
def run_command_events (i : ℕ) : List FsEvent :=
  [FsEvent.createMarker (pid_file i), FsEvent.removeMarker (pid_file i)]

/-- Marker events of a sequential direct run (`main` lines 476-481) in
which every `run_command` call runs to completion. -/
def run_sequential_events (ords : List ℕ) : List FsEvent :=
  (ords.map run_command_events).flatten

/-- The cleanup sweep of the signal handler (lines 316-333): every marker
matching the glob `pid/chunk_*.pid` is removed; anything else survives. -/
def handler_sweep (s : Finset String) : Finset String :=
  s.filter (fun p => chunk_glob_match p = false)

/-! ### Direct-execution supervisor outcomes

`run_command` (lines 63-106) returns
`(process.returncode == 0, command, f"See log file: {log_file}")`.
The sequential branch of `main` (lines 476-481) calls it once per command
and prints `f"Command {i} failed: {cmd}"` plus the returned message for
every failure; `run_commands_parallel` (lines 302-378) counts successes
and returns `success_count == len(commands)`.  Child exit codes are an
environment parameter `exit_codes : ℕ → ℤ` indexed by chunk ordinal. -/

/-- Python `enumerate(commands, 1)`. -/
def enum1 (cmds : List String) : List (ℕ × String) :=
  (List.range' 1 cmds.length).zip cmds

/-- Result triple of a completed `run_command` call (line 96). -/
def run_command_result (command : String) (chunk_id : ℕ) (log_dir : String)
    (exit_code : ℤ) : Bool × String × String :=
  (exit_code == 0, command,
    "See log file: " ++ log_dir ++ "/chunk_" ++ natToDecimalString chunk_id ++ ".log")

/-- Outcomes of the sequential direct-execution loop of `main`
(lines 477-481): every command is run, regardless of earlier failures. -/
def run_sequential (cmds : List String) (log_dir : String) (exit_codes : ℕ → ℤ) :
    List (Bool × String × String) :=
  (enum1 cmds).map (fun p => run_command_result p.2 p.1 log_dir (exit_codes p.1))

/-- The failure report printed by the sequential loop: one
`(f"Command {i} failed: {cmd}", output)` pair per failed chunk. -/
def sequential_failure_lines (cmds : List String) (log_dir : String)
    (exit_codes : ℕ → ℤ) : List (String × String) :=
  ((enum1 cmds).filter (fun p => !(exit_codes p.1 == 0))).map
    (fun p => ("Command " ++ natToDecimalString p.1 ++ " failed: " ++ p.2,
      (run_command_result p.2 p.1 log_dir (exit_codes p.1)).2.2))

/-- `success_count` of `run_commands_parallel` (lines 346-357). -/
def success_count (cmds : List String) (log_dir : String) (exit_codes : ℕ → ℤ) : ℕ :=
  ((enum1 cmds).filter
    (fun p => (run_command_result p.2 p.1 log_dir (exit_codes p.1)).1)).length

/-- The aggregate flag returned by `run_commands_parallel` (line 378):
`success_count == len(commands)`. -/
def run_commands_parallel_success (cmds : List String) (log_dir : String)
    (exit_codes : ℕ → ℤ) : Bool :=
  success_count cmds log_dir exit_codes == cmds.length

/-! ### Job-array script emission

`create_job_array_script` (lines 212-300) opens the output file, writes
`"#!/bin/bash\n"`, and only then dispatches on
`job_array_type.lower()`; the `else` branch calls `sys.exit(1)` with the
file already created and holding the shebang line.  The rendered text is
modelled verbatim; `\x7b` / `\x7d` are the literal braces of the shell
text. -/

/-- Marker path used inside a job-array script:
`pid/<scheduler>_${<task-index-variable>}.pid`. -/
def job_array_pid_path (sched v : String) : String :=
  "pid/" ++ sched ++ "_$\x7b" ++ v ++ "\x7d.pid"

/-- The marker-creation line `echo $$ > pid/<sched>_${v}.pid\n\n`. -/
def job_array_pid_create (sched v : String) : String :=
  "echo $$ > " ++ job_array_pid_path sched v ++ "\n\n"

/-- The `commands[i]="..."` array lines (one per command, 1-based). -/
def commands_array_lines (cmds : List String) : String :=
  String.join ((enum1 cmds).map
    (fun p => "commands[" ++ natToDecimalString p.1 ++ "]=\"" ++ p.2 ++ "\"\n"))

/-- The common tail of every job-array script (lines 229-241 and the sge/
lsf analogues), parameterised by scheduler name and task-index variable. -/
def job_array_body (sched v : String) (cmds : List String) : String :=
  "# Create commands array\n" ++ "declare -a commands\n" ++
  commands_array_lines cmds ++ "\n" ++
  "# Log the start of the job\n" ++
  "echo \"Starting job array task $\x7b" ++ v ++ "\x7d at $(date)\"\n" ++
  "echo \"Command: $\x7bcommands[$" ++ v ++ "]\x7d\"\n\n" ++
  "# Execute the command for this array job\n" ++
  "$\x7bcommands[$" ++ v ++ "]\x7d\n\n" ++
  "# Log the completion and remove PID file\n" ++
  "echo \"Completed job array task $\x7b" ++ v ++ "\x7d at $(date)\"\n" ++
  "rm -f " ++ job_array_pid_path sched v ++ "\n"

/-- SLURM directive block (lines 218-227). -/
def slurm_directives (n : ℕ) (mem_per_job time_per_job log_dir : String) : String :=
  "#SBATCH --array=1-" ++ natToDecimalString n ++ "\n" ++
  "#SBATCH --job-name=LECIF_feature_agg\n" ++
  "#SBATCH --output=" ++ log_dir ++ "/LECIF_feature_agg_%A_%a.out\n" ++
  "#SBATCH --error=" ++ log_dir ++ "/LECIF_feature_agg_%A_%a.err\n" ++
  "#SBATCH --time=" ++ time_per_job ++ "\n" ++
  "#SBATCH --mem=" ++ mem_per_job ++ "\n" ++
  "#SBATCH --cpus-per-task=4\n" ++ "\n" ++
  "mkdir -p pid\n" ++ "# Create PID file for this job\n"

/-- SGE directive block (lines 244-253). -/
def sge_directives (n : ℕ) (mem_per_job time_per_job log_dir : String) : String :=
  "#$ -t 1-" ++ natToDecimalString n ++ "\n" ++
  "#$ -N LECIF_feature_agg\n" ++
  "#$ -o " ++ log_dir ++ "/LECIF_feature_agg_$JOB_ID_$TASK_ID.out\n" ++
  "#$ -e " ++ log_dir ++ "/LECIF_feature_agg_$JOB_ID_$TASK_ID.err\n" ++
  "#$ -l h_rt=" ++ time_per_job ++ "\n" ++
  "#$ -l h_vmem=" ++ mem_per_job ++ "\n" ++
  "#$ -pe threaded 4\n" ++ "\n" ++
  "mkdir -p pid\n" ++ "# Create PID file for this job\n"

/-- LSF directive block (lines 270-277). -/
def lsf_directives (n : ℕ) (mem_per_job time_per_job log_dir : String) : String :=
  "#BSUB -J LECIF_feature_agg[1-" ++ natToDecimalString n ++ "]\n" ++
  "#BSUB -o " ++ log_dir ++ "/LECIF_feature_agg_%J_%I.out\n" ++
  "#BSUB -e " ++ log_dir ++ "/LECIF_feature_agg_%J_%I.err\n" ++
  "#BSUB -W " ++ time_per_job ++ "\n" ++
  "#BSUB -M " ++ mem_per_job ++ "\n" ++
  "#BSUB -n 4\n" ++ "\n" ++
  "mkdir -p pid\n" ++ "# Create PID file for this job\n"

/-- `create_job_array_script`: first component is the content of the file
the function creates (it always creates one — the shebang is written
before the dispatch), second is `some exitCode` when `sys.exit` fires. -/
def create_job_array_script (cmds : List String)
    (job_array_type mem_per_job time_per_job log_dir : String) :
    Option String × Option ℕ :=
  if strLower job_array_type = "slurm" then
    (some ("#!/bin/bash\n" ++ slurm_directives cmds.length mem_per_job time_per_job log_dir ++
      job_array_pid_create "slurm" "SLURM_ARRAY_TASK_ID" ++
      job_array_body "slurm" "SLURM_ARRAY_TASK_ID" cmds), none)
  else if strLower job_array_type = "sge" then
    (some ("#!/bin/bash\n" ++ sge_directives cmds.length mem_per_job time_per_job log_dir ++
      job_array_pid_create "sge" "SGE_TASK_ID" ++
      job_array_body "sge" "SGE_TASK_ID" cmds), none)
  else if strLower job_array_type = "lsf" then
    (some ("#!/bin/bash\n" ++ lsf_directives cmds.length mem_per_job time_per_job log_dir ++
      job_array_pid_create "lsf" "LSB_JOBINDEX" ++
      job_array_body "lsf" "LSB_JOBINDEX" cmds), none)
  else (some "#!/bin/bash\n", some 1)

/-! ### Local shell-script emission

`create_shell_script` (lines 108-210) renders the locally-run script; the
content depends only on the command list, the parallel flag, and the
resolved worker bound — the configured log directory appears only in
the usage hints printed to stdout, never in the script text, whose log
and pid paths are the fixed relative `log/` and `pid/`. -/

/-- The `cleanup()` trap handler block (lines 116-129). -/
def cleanup_block : String :=
  "cleanup() \x7b\n" ++
  "    echo \"Cleaning up PID files...\"\n" ++
  "    # Kill all running processes\n" ++
  "    for pid_file in pid/chunk_*.pid; do\n" ++
  "        if [ -f \"$pid_file\" ]; then\n" ++
  "            pid=$(cat \"$pid_file\")\n" ++
  "            echo \"Killing process $pid from $pid_file\"\n" ++
  "            kill -TERM $pid 2>/dev/null || echo \"Could not kill $pid\"\n" ++
  "            rm -f \"$pid_file\"\n" ++
  "        fi\n" ++
  "    done\n" ++
  "    echo \"Cleanup complete\"\n" ++
  "    exit\n" ++
  "\x7d\n\n"

/-- Common header of both local script variants (lines 110-136). -/
def shell_header : String :=
  "#!/bin/bash\n\n" ++
  "# Create directories for logs and PIDs\n" ++
  "mkdir -p log pid\n\n" ++
  "# Function to clean up on exit\n" ++
  cleanup_block ++
  "# Set up signal handling\n" ++
  "trap cleanup SIGINT SIGTERM EXIT\n\n" ++
  "echo \"Starting processing at $(date)\"\n" ++
  "echo \"Logging to $\x7bPWD\x7d/log/\"\n" ++
  "echo \"PIDs stored in $\x7bPWD\x7d/pid/\"\n\n"

/-- Marker-write line of the sequential script for chunk `i` (line 198). -/
def seq_marker_line (i : ℕ) : String :=
  "echo \"$pid\" > \"pid/chunk_" ++ natToDecimalString i ++ ".pid\"\n"

/-- Sequential per-chunk block, part before the marker write
(lines 193-197). -/
def seq_block_pre (i : ℕ) (cmd : String) : String :=
  "# Process chunk " ++ natToDecimalString i ++ "\n" ++
  "echo \"Starting chunk " ++ natToDecimalString i ++ " at $(date)\"\n" ++
  "# Save PID\n" ++
  cmd ++ " > \"log/chunk_" ++ natToDecimalString i ++ ".log\" 2>&1 &\n" ++
  "pid=$!\n"

/-- Sequential per-chunk block, part after the marker write
(lines 199-202): the script waits for the child and then removes the
marker, and failures do not stop the loop. -/
def seq_block_post (i : ℕ) : String :=
  "echo \"Started chunk " ++ natToDecimalString i ++ " with PID $pid\"\n" ++
  "wait $pid\n" ++
  "rm -f \"pid/chunk_" ++ natToDecimalString i ++ ".pid\"\n" ++
  "echo \"Finished chunk " ++ natToDecimalString i ++ " at $(date)\"\n\n"

/-- One full sequential per-chunk block. -/
def seq_chunk_block (p : ℕ × String) : String :=
  seq_block_pre p.1 p.2 ++ seq_marker_line p.1 ++ seq_block_post p.1

/-- Closing line of both local script variants (line 204). -/
def shell_footer : String := "\necho \"All processing completed at $(date)\"\n"

/-- Full content of the sequential local script. -/
def create_shell_script_sequential (cmds : List String) : String :=
  shell_header ++ String.join ((enum1 cmds).map seq_chunk_block) ++ shell_footer

/-- Shared core of `run_with_parallel` / `run_with_limit` before the
marker write (lines 147-152 and 174-179). -/
def par_fun_core : String :=
  "        chunk_id=$1\n" ++
  "        shift\n" ++
  "        # Start the process and redirect output\n" ++
  "        \"$@\" > \"log/chunk_$\x7bchunk_id\x7d.log\" 2>&1 &\n" ++
  "        pid=$!\n" ++
  "        echo \"Started chunk $\x7bchunk_id\x7d with PID $\x7bpid\x7d\"\n"

/-- Marker-write line of both parallel launcher functions (lines 153 and
180). -/
def par_marker_line : String :=
  "        echo \"$pid\" > \"pid/chunk_$\x7bchunk_id\x7d.pid\"\n"

/-- The GNU-parallel branch of the parallel script (lines 144-165). -/
def par_gnu_branch (cmds : List String) (mp : ℕ) : String :=
  "if command -v parallel &> /dev/null; then\n" ++
  "    # Use GNU Parallel with proper logging\n" ++
  "    run_with_parallel() \x7b\n" ++
  par_fun_core ++ par_marker_line ++
  "    \x7d\n" ++
  "    export -f run_with_parallel\n\n" ++
  "    # Create array of commands\n" ++
  String.join ((enum1 cmds).map
    (fun p => "    cmd" ++ natToDecimalString p.1 ++ "=(" ++ p.2 ++ ")\n")) ++
  "\n    # Run commands with parallel\n" ++
  "    parallel -j " ++ natToDecimalString mp ++ " run_with_parallel \x7b1\x7d \x7b2\x7d ::: " ++
  String.intercalate " " ((enum1 cmds).map
    (fun p => natToDecimalString p.1 ++ " \"$\x7bcmd" ++ natToDecimalString p.1 ++ "[@]\x7d\"")) ++
  "\n"

/-- The fallback branch of the parallel script (lines 166-189). -/
def par_fallback_branch (cmds : List String) (mp : ℕ) : String :=
  "else\n" ++
  "    # Fall back to background jobs with wait\n" ++
  "    run_with_limit() \x7b\n" ++
  "        # Wait until we have fewer than max processes running\n" ++
  "        while [ $(jobs -r | wc -l) -ge " ++ natToDecimalString mp ++ " ]; do\n" ++
  "            sleep 1\n" ++
  "        done\n" ++
  par_fun_core ++ par_marker_line ++
  "    \x7d\n\n" ++
  String.join ((enum1 cmds).map
    (fun p => "    # Process chunk " ++ natToDecimalString p.1 ++ "\n" ++
      "    run_with_limit " ++ natToDecimalString p.1 ++ " " ++ p.2 ++ "\n")) ++
  "\n    # Wait for all background jobs to finish\n" ++
  "    wait\n" ++
  "fi\n"

/-- Full content of the parallel local script, given the resolved worker
bound `mp` (the `max_processes or cpu_count - 1` of line 140). -/
def create_shell_script_parallel (cmds : List String) (mp : ℕ) : String :=
  shell_header ++
  "# Running commands in parallel (max " ++ natToDecimalString mp ++ " at once)\n" ++
  par_gnu_branch cmds mp ++ par_fallback_branch cmds mp ++ shell_footer

/-! ### Combine-step emission

`generate_combine_script` (lines 380-405): the species tag is `"h"` when
the substring `".h.gz"` occurs in the region filename and `"m"`
otherwise; the rendered script concatenates `all_*.gz` into the single
species-tagged file and reports success or failure from the exit status
of the concatenation command. -/

/-- `species_id = "h" if ".h.gz" in args.region_filename else "m"`
(line 390). -/
def species_id (region_filename : String) : String :=
  if listContainsSub ".h.gz".data region_filename.data then "h" else "m"

/-- The single output file of the combine step:
`f"{args.output_dir}/all.{species_id}.gz"` (line 393). -/
def combined_output (args : Args) : String :=
  args.output_dir ++ "/all." ++ species_id args.region_filename ++ ".gz"

/-- The concatenation command (line 393). -/
def combine_cmd (args : Args) : String :=
  "cat " ++ args.output_dir ++ "/all_*.gz > " ++ combined_output args

/-- The list of files the combine script's concatenation writes to. -/
def combine_targets (args : Args) : List String := [combined_output args]

/-- The message the combine script prints, as a function of the
concatenation command's exit status (lines 396-400). -/
def combine_message (exit_code : ℤ) : String :=
  if exit_code = 0 then "Combination complete."
  else "Error during combination. Check log/combine_chunks.log"

/-- Full content of `combine_chunks.sh` (lines 383-400). -/
def combine_script_content (args : Args) (num_chunks : ℤ) : String :=
  "#!/bin/bash\n\n" ++
  "# Script to combine all processed chunks into a single file\n\n" ++
  "# Create log directory\n" ++
  "mkdir -p log\n\n" ++
  "echo \"Combining " ++ intToDecimalString num_chunks ++ " chunks into a single file...\"\n" ++
  combine_cmd args ++ " > log/combine_chunks.log 2>&1\n" ++
  "if [ $? -eq 0 ]; then\n" ++
  "    echo \"Combination complete.\"\n" ++
  "else\n" ++
  "    echo \"Error during combination. Check log/combine_chunks.log\"\n" ++
  "fi\n"

/-! ### Exit status and artifacts of `main`

`main` (lines 407-515): after parsing, it creates the output/log/pid
directories, counts regions, computes the chunk count (a
`ZeroDivisionError` for chunk size 0 aborts the interpreter with status
1), generates the commands, and then either executes directly — falling
off the end of `main` with status 0 whatever the chunk outcomes — or
writes the script artifacts.  `sys.exit(1)` inside
`create_job_array_script` is the only in-repo nonzero exit. -/

/-- Exit status of a `main` run.  `exit_codes` is the chunk-outcome
environment for direct execution; it is unused because no execution
outcome influences the status. -/
def main_exit_status (num_regions : ℕ) (args : Args) (execute : Bool)
    (job_array mem_per_job time_per_job : String) (_exit_codes : ℕ → ℤ) : ℕ :=
  match num_chunks? num_regions args.chunk_size with
  | none => 1
  | some k =>
    if execute then 0
    else if job_array ≠ "none" then
      ((create_job_array_script (generate_commands args k)
        job_array mem_per_job time_per_job args.log_dir).2.getD 0)
    else 0

/-- The script files a `main` run leaves behind (paths as built at lines
485, 489, 382).  On a `ZeroDivisionError` nothing has been written yet;
in execute mode no scripts are produced; an unsupported job-array kind
leaves the partially written job-array file but no combine script. -/
def main_script_files (num_regions : ℕ) (args : Args) (execute : Bool)
    (job_array mem_per_job time_per_job : String) : List String :=
  match num_chunks? num_regions args.chunk_size with
  | none => []
  | some k =>
    if execute then []
    else if job_array ≠ "none" then
      if (create_job_array_script (generate_commands args k)
          job_array mem_per_job time_per_job args.log_dir).2 = none then
        [args.output_dir ++ "/process_regions_job_array_" ++ job_array ++ ".sh",
         args.output_dir ++ "/combine_chunks.sh"]
      else
        [args.output_dir ++ "/process_regions_job_array_" ++ job_array ++ ".sh"]
    else
      [args.output_dir ++ "/process_regions.sh",
       args.output_dir ++ "/combine_chunks.sh"]

/-! ### Marker-file write steps

`run_command` writes the marker with
`with open(pid_file, 'w') as f: f.write(str(process.pid))`
(lines 81-82) and the emitted scripts with
`echo "$pid" > "pid/chunk_${chunk_id}.pid"`: a truncating open at the
final path, a content write, and a close.  No temporary file and no
rename are involved.  The write path is modelled as a step list, and the
contents a concurrent reader of a path can observe as the scan of those
steps. -/

/-- One elementary file-system step of a write path. -/
inductive WriteStep where
  | openTrunc : String → WriteStep
  | writeChunk : String → String → WriteStep
  | closeFile : String → WriteStep
  | renameFile : String → String → WriteStep
deriving DecidableEq

/-- The write path of `run_command`'s marker write (lines 81-82). -/
def marker_write_steps (chunk_id pid : ℕ) : List WriteStep :=
  [WriteStep.openTrunc (pid_file chunk_id),
   WriteStep.writeChunk (pid_file chunk_id) (natToDecimalString pid),
   WriteStep.closeFile (pid_file chunk_id)]

/-- The write path of the shell redirection
`echo "$pid" > "pid/chunk_${chunk_id}.pid"` (script lines): `echo`
appends a newline to the written PID. -/
def shell_marker_write_steps (chunk_id pid : ℕ) : List WriteStep :=
  [WriteStep.openTrunc (pid_file chunk_id),
   WriteStep.writeChunk (pid_file chunk_id) (natToDecimalString pid ++ "\n"),
   WriteStep.closeFile (pid_file chunk_id)]

/-- Does a step make `p` visible by renaming something onto it? -/
def is_rename_to (p : String) : WriteStep → Bool
  | WriteStep.renameFile _ dst => dst == p
  | _ => false

/-- A write path has write-then-visible-rename semantics for `p` when
some step renames a staging file onto `p`. -/
def uses_write_then_rename (steps : List WriteStep) (p : String) : Bool :=
  steps.any (is_rename_to p)

/-- Content of path `p` after one step (`none` = file absent; a rename
onto `p` is represented abstractly as making some complete content
appear, which never happens in the marker write paths above). -/
def step_content (p : String) (cur : Option String) : WriteStep → Option String
  | WriteStep.openTrunc q => if q == p then some "" else cur
  | WriteStep.writeChunk q s =>
    if q == p then (match cur with | some c => some (c ++ s) | none => cur) else cur
  | WriteStep.closeFile _ => cur
  | WriteStep.renameFile _ _ => cur

/-- Every content of `p` a concurrent reader can observe while the steps
run (including the state before the first step). -/
def observable_contents (steps : List WriteStep) (p : String) : List (Option String) :=
  steps.scanl (step_content p) none

/-- The two paths `run_command` builds for a chunk (lines 65-66): the
marker path is the fixed relative `pid/chunk_<id>.pid`, the log path
lives under the configured log directory. -/
def run_command_paths (chunk_id : ℕ) (log_dir : String) : String × String :=
  (pid_file chunk_id,
   log_dir ++ "/chunk_" ++ natToDecimalString chunk_id ++ ".log")

/-! ### Theorems -/

/-! ### Small string kit -/

theorem str_ext {s t : String} (h : s.data = t.data) : s = t := by
  cases s
  cases t
  simp_all

theorem str_data_append (a b : String) : (a ++ b).data = a.data ++ b.data := rfl

/-! ### Digit-list lemmas -/

theorem digitVal_natDigitChar (d : ℕ) (h : d < 10) : digitVal (natDigitChar d) = d := by
  interval_cases d <;> rfl

theorem digitListVal_concat (xs : List Char) (c : Char) :
    digitListVal (xs ++ [c]) = 10 * digitListVal xs + digitVal c := by
  simp [digitListVal, List.foldl_append]

theorem toDigitsCore_eq_rec : ∀ (fuel n : ℕ) (ds : List Char), n < 10 ^ (fuel + 1) →
    toDigitsCore (fuel + 1) n ds = natDigitsRec n ++ ds := by
  intro fuel
  induction fuel with
  | zero =>
    intro n ds h
    have hn : n < 10 := by simpa using h
    rw [toDigitsCore, natDigitsRec]
    simp [Nat.div_eq_of_lt hn, Nat.mod_eq_of_lt hn, hn]
  | succ f ih =>
    intro n ds h
    rw [toDigitsCore]
    by_cases h10 : n < 10
    · rw [natDigitsRec]
      simp [Nat.div_eq_of_lt h10, Nat.mod_eq_of_lt h10, h10]
    · have hdiv : n / 10 ≠ 0 := by
        intro hc
        exact h10 (by omega)
      have hlt : n / 10 < 10 ^ (f + 1) := by
        apply Nat.div_lt_of_lt_mul
        calc n < 10 ^ (f + 2) := h
        _ = 10 * 10 ^ (f + 1) := by ring
      rw [if_neg hdiv, ih (n / 10) _ hlt]
      conv_rhs => rw [natDigitsRec]
      rw [dif_neg h10]
      simp

theorem natToDigitList_eq_rec (n : ℕ) : natToDigitList n = natDigitsRec n := by
  have h : n < 10 ^ (n + 1) := by
    calc n < 10 ^ n := Nat.lt_pow_self (by norm_num) n
    _ ≤ 10 ^ (n + 1) := Nat.pow_le_pow_right (by norm_num) (by omega)
  simpa [natToDigitList] using toDigitsCore_eq_rec n n [] h

theorem digitListVal_natDigitsRec (n : ℕ) : digitListVal (natDigitsRec n) = n := by
  induction n using Nat.strong_induction_on with
  | _ n ih =>
    rw [natDigitsRec]
    by_cases h : n < 10
    · simp [h, digitListVal, digitVal_natDigitChar n h]
    · rw [dif_neg h, digitListVal_concat,
        ih (n / 10) (Nat.div_lt_self (by omega) (by norm_num)),
        digitVal_natDigitChar (n % 10) (Nat.mod_lt _ (by norm_num))]
      omega

theorem natToDigitList_injective : Function.Injective natToDigitList := by
  intro a b h
  have := congrArg digitListVal h
  rwa [natToDigitList_eq_rec, natToDigitList_eq_rec,
    digitListVal_natDigitsRec, digitListVal_natDigitsRec] at this

theorem natToDecimalString_injective : Function.Injective natToDecimalString := by
  intro a b h
  exact natToDigitList_injective (congrArg String.data h)

theorem natDigitsRec_ne_nil (n : ℕ) : natDigitsRec n ≠ [] := by
  rw [natDigitsRec]
  by_cases h : n < 10 <;> simp [h]

theorem natToDecimalString_ne_empty (n : ℕ) : natToDecimalString n ≠ "" := by
  intro h
  exact natDigitsRec_ne_nil n (by
    have := congrArg String.data h
    rwa [natToDecimalString, natToDigitList_eq_rec] at this)

theorem ceil_div_pos_eq_zero_iff (n : ℕ) (s : ℤ) (hs : 0 < s) :
    ⌈(n : ℚ) / (s : ℚ)⌉ = 0 ↔ n = 0 := by
  constructor
  · intro h
    by_contra hn
    have hn0 : 0 < (n : ℚ) := by
      exact_mod_cast Nat.pos_of_ne_zero hn
    have hs0 : 0 < (s : ℚ) := by exact_mod_cast hs
    have : 0 < ⌈(n : ℚ) / (s : ℚ)⌉ := Int.ceil_pos.mpr (div_pos hn0 hs0)
    omega
  · intro h
    subst h
    simp

theorem ceil_div_neg_nonpos (n : ℕ) (s : ℤ) (hs : s < 0) :
    ⌈(n : ℚ) / (s : ℚ)⌉ ≤ 0 := by
  have hs0 : (s : ℚ) ≤ 0 := by exact_mod_cast hs.le
  have hn0 : 0 ≤ (n : ℚ) := by positivity
  have hd : (n : ℚ) / (s : ℚ) ≤ 0 := div_nonpos_iff.mpr (Or.inl ⟨hn0, hs0⟩)
  exact Int.ceil_le.mpr (by exact_mod_cast hd)

/-- C1: for a total count `N ≥ 0` and a chunk size `S > 0` the partitioner
computes `ceil(N / S)`, and the chunk count is `0` exactly when `N = 0`. -/
theorem partitioner_ceil_and_zero_iff (n : ℕ) (s : ℤ) (hs : 0 < s) :
    num_chunks? n s = some ⌈(n : ℚ) / (s : ℚ)⌉ ∧
    (num_chunks? n s = some 0 ↔ n = 0) := by
  constructor
  · simp [num_chunks?, hs.ne']
  · rw [num_chunks?, if_neg hs.ne']
    simp only [Option.some_inj]
    exact ceil_div_pos_eq_zero_iff n s hs

/-- Witness for C1: the spec scenario `N = 2500000`, `S = 1000000` gives a
chunk count of `3`, which is nonzero as the theorem demands. -/
theorem partitioner_ceil_and_zero_iff_witness :
    (0 : ℤ) < 1000000 ∧
    num_chunks? 2500000 1000000 = some 3 ∧
    (num_chunks? 2500000 1000000 = some 0 ↔ 2500000 = 0) := by
  refine ⟨by norm_num, ?_, (partitioner_ceil_and_zero_iff 2500000 1000000 (by norm_num)).2⟩
  rw [num_chunks?, if_neg (by norm_num)]
  congr 1
  rw [Int.ceil_eq_iff]
  constructor <;> norm_num

theorem output_path_injective (args : Args) : Function.Injective (output_path args) := by
  intro i j h
  have hd := congrArg String.data h
  simp only [output_path, str_data_append, List.append_assoc] at hd
  have h1 := List.append_cancel_left hd
  have h2 := List.append_cancel_left h1
  have h3 := List.append_cancel_right h2
  exact natToDecimalString_injective (str_ext h3 : natToDecimalString i = natToDecimalString j)

/-- C2: for every chunk count `K ≥ 0`, the plan built by
`generate_commands` has exactly `K` command descriptors; the descriptor at
position `idx` is the command for ordinal `idx + 1` (so ordinals run
`1..K` in order); every descriptor embeds the output path derived from its
ordinal; the output paths of ordinals `1..K` are pairwise distinct; and
rebuilding from identical inputs yields the identical plan. -/
theorem plan_shape_and_distinct_paths (args : Args) (k : ℕ) :
    (generate_commands args (k : ℤ)).length = k ∧
    (∀ idx (h : idx < (generate_commands args (k : ℤ)).length),
      (generate_commands args (k : ℤ)).get ⟨idx, h⟩ = command_string args (idx + 1)) ∧
    (∀ i, command_string args i =
      command_head args ++ ("-o " ++ output_path args i) ++ command_tail args i) ∧
    ((List.range' 1 k).map (output_path args)).Nodup ∧
    generate_commands args (k : ℤ) = generate_commands args (k : ℤ) := by
  refine ⟨?_, ?_, fun _ => rfl, ?_, rfl⟩
  · simp [generate_commands]
  · intro idx h
    simp only [generate_commands, List.get_eq_getElem, List.getElem_map, List.getElem_range']
    congr 1
    omega
  · exact ((List.nodup_range' 1 k).map (output_path_injective args))

/-- Witness for C2: the spec scenario of three chunks over a concrete
configuration; the plan has three descriptors and the three output paths
are pairwise distinct. -/
theorem plan_shape_and_distinct_paths_witness :
    (generate_commands
      { region_filename := "regions.h.gz", cage_dir := "ca", chromhmm_dir := "ch",
        dnase_chipseq_dir := "dn", rnaseq_dir := "rn", chromhmm_num_states := 25,
        cage_num_experiments := 1829, num_features := 8824, output_dir := "out",
        chunk_size := 1000000, log_dir := "log" } (3 : ℤ)).length = 3 ∧
    ((List.range' 1 3).map (output_path
      { region_filename := "regions.h.gz", cage_dir := "ca", chromhmm_dir := "ch",
        dnase_chipseq_dir := "dn", rnaseq_dir := "rn", chromhmm_num_states := 25,
        cage_num_experiments := 1829, num_features := 8824, output_dir := "out",
        chunk_size := 1000000, log_dir := "log" })).Nodup := by
  refine ⟨(plan_shape_and_distinct_paths _ 3).1, (plan_shape_and_distinct_paths _ 3).2.2.2.1⟩

theorem isPrefixOf_append_self (l t : List Char) : l.isPrefixOf (l ++ t) = true := by
  induction l with
  | nil => cases t <;> rfl
  | cons c cs ih => simp [List.isPrefixOf, ih]

theorem isSuffixOf_append_self (l t : List Char) : t.isSuffixOf (l ++ t) = true := by
  rw [List.isSuffixOf, List.reverse_append]
  exact isPrefixOf_append_self t.reverse l.reverse

theorem chunk_glob_match_pid_file (i : ℕ) : chunk_glob_match (pid_file i) = true := by
  have hd : (pid_file i).data =
      "pid/chunk_".data ++ ((natToDecimalString i).data ++ ".pid".data) := by
    simp [pid_file, str_data_append]
  have hs : (pid_file i).data =
      ("pid/chunk_".data ++ (natToDecimalString i).data) ++ ".pid".data := by
    simp [pid_file, str_data_append]
  rw [chunk_glob_match, hd, isPrefixOf_append_self, ← hd, hs, isSuffixOf_append_self]
  rfl

theorem fs_run_append (a b : List FsEvent) (s : Finset String) :
    fs_run (a ++ b) s = fs_run b (fs_run a s) := List.foldl_append ..

theorem fs_run_run_command_events (i : ℕ) : fs_run (run_command_events i) ∅ = ∅ := by
  simp [fs_run, run_command_events, fs_step,
    Finset.erase_insert (Finset.not_mem_empty (pid_file i))]

theorem mem_fs_run_created : ∀ (evs : List FsEvent) (s : Finset String) (p : String),
    p ∈ fs_run evs s → p ∈ s ∨ FsEvent.createMarker p ∈ evs := by
  intro evs
  induction evs with
  | nil => intro s p h; exact Or.inl h
  | cons e t ih =>
    intro s p h
    rcases ih (fs_step s e) p h with h1 | h1
    · cases e with
      | createMarker q =>
        rcases Finset.mem_insert.mp h1 with hq | hq
        · subst hq; exact Or.inr (List.mem_cons_self _ _)
        · exact Or.inl hq
      | removeMarker q => exact Or.inl (Finset.mem_of_mem_erase h1)
    · exact Or.inr (List.mem_cons_of_mem _ h1)

/-- Counterexample to C3: the sequential direct-execution path of `main`
(lines 476-481) installs no signal handler — `signal.signal` is called
only inside `run_commands_parallel` (lines 336-337) — and `run_command`
catches only `Exception`, which excludes `KeyboardInterrupt` and the
default `SIGTERM` disposition.  A termination signal arriving while chunk
2 of a 3-chunk sequential run is waiting therefore kills the supervisor
after chunk 2's marker was created but before it was removed: the marker
directory is not empty when the supervising process exits. -/
theorem marker_left_on_sequential_interrupt :
    fs_run (run_command_events 1 ++ [FsEvent.createMarker (pid_file 2)]) ∅ ≠ ∅ := by
  rw [fs_run_append, fs_run_run_command_events]
  simp [fs_run, fs_step]

/-- C3 as amended: a sequential direct run in which every `run_command`
call runs to completion (normally or through its exception path) removes
every marker it created; every `run_command` marker matches the cleanup
glob `pid/chunk_*.pid`; and after any run whose created markers all match
that glob — in particular any interrupted parallel run — the handler
sweep leaves the marker directory empty.  Interruption of a *sequential*
direct run, where no handler is installed, is the exception recorded in
the counterexample. -/
theorem marker_cleanup_amended :
    (∀ ords : List ℕ, fs_run (run_sequential_events ords) ∅ = ∅) ∧
    (∀ i : ℕ, chunk_glob_match (pid_file i) = true) ∧
    (∀ evs : List FsEvent,
      (∀ p, FsEvent.createMarker p ∈ evs → chunk_glob_match p = true) →
      handler_sweep (fs_run evs ∅) = ∅) := by
  refine ⟨?_, chunk_glob_match_pid_file, ?_⟩
  · intro ords
    induction ords with
    | nil => rfl
    | cons i t ih =>
      have : run_sequential_events (i :: t) =
          run_command_events i ++ run_sequential_events t := by
        simp [run_sequential_events]
      rw [this, fs_run_append, fs_run_run_command_events, ih]
  · intro evs h
    rw [handler_sweep, Finset.filter_eq_empty_iff]
    intro p hp
    rcases mem_fs_run_created evs ∅ p hp with h1 | h1
    · exact absurd h1 (Finset.not_mem_empty p)
    · simp [h p h1]

/-- Witness for C3 (amended): a complete sequential run over ordinals
`[1, 2, 3]` ends with no markers, and the handler sweep empties the
directory of an interrupted parallel run that had live markers for chunks
1 and 3. -/
theorem marker_cleanup_amended_witness :
    fs_run (run_sequential_events [1, 2, 3]) ∅ = ∅ ∧
    handler_sweep (fs_run
      [FsEvent.createMarker (pid_file 1), FsEvent.createMarker (pid_file 3)] ∅) = ∅ := by
  refine ⟨marker_cleanup_amended.1 [1, 2, 3], marker_cleanup_amended.2.2 _ ?_⟩
  intro p hp
  have : p = pid_file 1 ∨ p = pid_file 3 := by
    simpa using hp
  rcases this with h | h <;> subst h <;> exact chunk_glob_match_pid_file _

/-! ### More string lemmas (association, empty, join) -/

theorem str_append_assoc (a b c : String) : (a ++ b) ++ c = a ++ (b ++ c) :=
  str_ext (by simp [str_data_append])

theorem str_append_empty (a : String) : a ++ "" = a :=
  str_ext (by simp [str_data_append])

theorem str_empty_append (a : String) : "" ++ a = a :=
  str_ext (by simp [str_data_append])

theorem str_foldl_append (xs : List String) :
    ∀ a : String, xs.foldl (· ++ ·) a = a ++ xs.foldl (· ++ ·) "" := by
  induction xs with
  | nil => intro a; simp [List.foldl, str_append_empty]
  | cons y ys ih =>
    intro a
    simp only [List.foldl]
    rw [ih (a ++ y), ih ("" ++ y), str_empty_append, str_append_assoc]

theorem str_join_cons (x : String) (xs : List String) :
    String.join (x :: xs) = x ++ String.join xs := by
  simp only [String.join, List.foldl]
  rw [str_foldl_append, str_empty_append]

theorem str_join_split (l1 l2 : List String) (x : String) :
    String.join (l1 ++ x :: l2) = String.join l1 ++ (x ++ String.join l2) := by
  induction l1 with
  | nil =>
    simp only [List.nil_append, str_join_cons]
    rw [show String.join [] = "" from rfl, str_empty_append]
  | cons y ys ih =>
    simp only [List.cons_append, str_join_cons, ih, str_append_assoc]

/-- C4: in the sequential direct run of 3 chunks where chunk 2 exits
nonzero, all three chunks produce completed outcomes (the loop never
stops early), the failure report names exactly chunk 2 with its message,
and the aggregate success flag computed by `run_commands_parallel` over
chunk outcomes is true exactly when every chunk's exit code is zero. -/
theorem sequential_failure_isolation :
    (run_sequential ["c1", "c2", "c3"] "log" (fun i => if i = 2 then 1 else 0)).length = 3 ∧
    (run_sequential ["c1", "c2", "c3"] "log" (fun i => if i = 2 then 1 else 0)).map
      (fun r => r.1) = [true, false, true] ∧
    sequential_failure_lines ["c1", "c2", "c3"] "log" (fun i => if i = 2 then 1 else 0) =
      [("Command 2 failed: c2", "See log file: log/chunk_2.log")] ∧
    run_commands_parallel_success ["c1", "c2", "c3"] "log"
      (fun i => if i = 2 then 1 else 0) = false ∧
    (∀ (cmds : List String) (log_dir : String) (exit_codes : ℕ → ℤ),
      run_commands_parallel_success cmds log_dir exit_codes = true ↔
      ∀ p ∈ enum1 cmds, exit_codes p.1 = 0) := by
  refine ⟨by decide, by decide, by decide, by decide, ?_⟩
  intro cmds log_dir exit_codes
  have hlen : (enum1 cmds).length = cmds.length := by simp [enum1]
  rw [run_commands_parallel_success, success_count, beq_iff_eq, ← hlen,
    List.filter_length_eq_length]
  constructor
  · intro h p hp
    have := h p hp
    simpa [run_command_result] using this
  · intro h p hp
    simp [run_command_result, h p hp]

/-- Witness for C4: the aggregate flag over a single all-successful chunk
is true. -/
theorem sequential_failure_isolation_witness :
    run_commands_parallel_success ["a"] "log" (fun _ => 0) = true :=
  (sequential_failure_isolation.2.2.2.2 ["a"] "log" (fun _ => 0)).mpr (by decide)

/-- Counterexample to C5: a direct-execution run whose only chunk fails
(aggregate success is false) still makes `main` fall off its end with
process exit status 0 — lines 467-481 print the failures but never call
`sys.exit`. -/
theorem exit_zero_on_chunk_failure :
    run_commands_parallel_success ["c1"] "log" (fun _ => 1) = false ∧
    main_exit_status 5
      { region_filename := "regions.h.gz", cage_dir := "ca", chromhmm_dir := "ch",
        dnase_chipseq_dir := "dn", rnaseq_dir := "rn", chromhmm_num_states := 25,
        cage_num_experiments := 1829, num_features := 8824, output_dir := "out",
        chunk_size := 1000000, log_dir := "log" } true "none" "16G" "12:00:00"
      (fun _ => 1) = 0 := by
  constructor
  · decide
  · simp [main_exit_status, num_chunks?]

/-- C5 as amended: exit status 0 on success; status 1 when the chunk size
is 0 (uncaught `ZeroDivisionError`) and when an unsupported scheduler
kind reaches `create_job_array_script`; but a chunk failure during
direct execution does *not* change the status — `main` exits 0 whatever
the chunk outcomes. -/
theorem exit_status_amended (n : ℕ) (args : Args)
    (ja mem tim : String) (ec ec' : ℕ → ℤ) :
    (args.chunk_size = 0 →
      main_exit_status n args false ja mem tim ec = 1 ∧
      main_exit_status n args true ja mem tim ec = 1) ∧
    (args.chunk_size ≠ 0 →
      main_exit_status n args true ja mem tim ec =
        main_exit_status n args true ja mem tim ec' ∧
      main_exit_status n args true ja mem tim ec = 0) ∧
    (args.chunk_size ≠ 0 → strLower ja ≠ "slurm" → strLower ja ≠ "sge" →
      strLower ja ≠ "lsf" → ja ≠ "none" →
      main_exit_status n args false ja mem tim ec = 1) ∧
    (args.chunk_size ≠ 0 →
      main_exit_status n args false "none" mem tim ec = 0) := by
  refine ⟨?_, ?_, ?_, ?_⟩
  · intro h0
    constructor <;> simp [main_exit_status, num_chunks?, h0]
  · intro h0
    constructor <;> simp [main_exit_status, num_chunks?, h0]
  · intro h0 h1 h2 h3 h4
    simp [main_exit_status, num_chunks?, h0, create_job_array_script, h1, h2, h3, h4]
  · intro h0
    simp [main_exit_status, num_chunks?, h0]

/-- Witness for C5 (amended), at a zero chunk size, a failing direct run,
an unsupported scheduler kind, and a plain script-emitting run. -/
theorem exit_status_amended_witness :
    main_exit_status 5
      { region_filename := "r", cage_dir := "ca", chromhmm_dir := "ch",
        dnase_chipseq_dir := "dn", rnaseq_dir := "rn", chromhmm_num_states := 1,
        cage_num_experiments := 1, num_features := 1, output_dir := "out",
        chunk_size := 0, log_dir := "log" } false "none" "16G" "12:00:00"
      (fun _ => 0) = 1 ∧
    main_exit_status 5
      { region_filename := "r", cage_dir := "ca", chromhmm_dir := "ch",
        dnase_chipseq_dir := "dn", rnaseq_dir := "rn", chromhmm_num_states := 1,
        cage_num_experiments := 1, num_features := 1, output_dir := "out",
        chunk_size := 7, log_dir := "log" } true "none" "16G" "12:00:00"
      (fun _ => 1) = 0 ∧
    main_exit_status 5
      { region_filename := "r", cage_dir := "ca", chromhmm_dir := "ch",
        dnase_chipseq_dir := "dn", rnaseq_dir := "rn", chromhmm_num_states := 1,
        cage_num_experiments := 1, num_features := 1, output_dir := "out",
        chunk_size := 7, log_dir := "log" } false "pbs" "16G" "12:00:00"
      (fun _ => 0) = 1 := by
  refine ⟨((exit_status_amended 5 _ "none" "16G" "12:00:00" _ (fun _ => 0)).1 (by decide)).1,
    ((exit_status_amended 5 _ "none" "16G" "12:00:00" _ (fun _ => 1)).2.1 (by decide)).2,
    (exit_status_amended 5 _ "pbs" "16G" "12:00:00" _ (fun _ => 0)).2.2.1
      (by decide) (by decide) (by decide) (by decide) (by decide)⟩

/-- Counterexample to C6: requesting the unsupported scheduler kind
`"pbs"` does end the process with status 1, but a script file *is*
written — `create_job_array_script` opens the file and writes the shebang
line before dispatching on the kind, so the file exists and holds
`#!/bin/bash` when `sys.exit(1)` fires. -/
theorem job_array_file_written_on_unsupported_kind :
    (create_job_array_script ["c"] "pbs" "16G" "12:00:00" "log").1 =
      some "#!/bin/bash\n" ∧
    (create_job_array_script ["c"] "pbs" "16G" "12:00:00" "log").2 = some 1 := by
  constructor <;> decide

/-- C6 as amended: for every scheduler kind outside Slurm/SGE/LSF
(case-insensitively), job-array script generation ends the process with
nonzero status, and the script file has been created containing exactly
the shebang line — no directives, commands or marker logic. -/
theorem unsupported_kind_exits_nonzero_with_shebang_file
    (cmds : List String) (kind mem tim ld : String)
    (h1 : strLower kind ≠ "slurm") (h2 : strLower kind ≠ "sge")
    (h3 : strLower kind ≠ "lsf") :
    create_job_array_script cmds kind mem tim ld = (some "#!/bin/bash\n", some 1) := by
  simp [create_job_array_script, h1, h2, h3]

/-- Witness for C6 (amended): the kind `"PBS"` (which lowercases to
`"pbs"`) is rejected with exit 1 and a shebang-only file. -/
theorem unsupported_kind_exits_nonzero_with_shebang_file_witness :
    create_job_array_script ["c"] "PBS" "16G" "12:00:00" "log" =
      (some "#!/bin/bash\n", some 1) :=
  unsupported_kind_exits_nonzero_with_shebang_file ["c"] "PBS" "16G" "12:00:00" "log"
    (by decide) (by decide) (by decide)

/-- Counterexample to C7: a negative chunk size (-1) is not rejected at
all.  With 5 regions the chunk count evaluates to -5, the plan is empty,
`main` exits with status 0, and both `process_regions.sh` and
`combine_chunks.sh` are still written — no fatal configuration error
occurs. -/
theorem negative_chunk_size_not_rejected :
    num_chunks? 5 (-1) = some (-5) ∧
    main_exit_status 5
      { region_filename := "r", cage_dir := "ca", chromhmm_dir := "ch",
        dnase_chipseq_dir := "dn", rnaseq_dir := "rn", chromhmm_num_states := 1,
        cage_num_experiments := 1, num_features := 1, output_dir := "out",
        chunk_size := -1, log_dir := "log" } false "none" "16G" "12:00:00"
      (fun _ => 0) = 0 ∧
    main_script_files 5
      { region_filename := "r", cage_dir := "ca", chromhmm_dir := "ch",
        dnase_chipseq_dir := "dn", rnaseq_dir := "rn", chromhmm_num_states := 1,
        cage_num_experiments := 1, num_features := 1, output_dir := "out",
        chunk_size := -1, log_dir := "log" } false "none" "16G" "12:00:00" =
      ["out/process_regions.sh", "out/combine_chunks.sh"] := by
  refine ⟨?_, ?_, ?_⟩
  · rw [num_chunks?, if_neg (by norm_num)]
    congr 1
    rw [Int.ceil_eq_iff]
    constructor <;> norm_num
  · simp [main_exit_status, num_chunks?]
  · simp [main_script_files, num_chunks?]

/-- C7 as amended: a chunk size of exactly 0 aborts the run with status 1
before any script is written (uncaught `ZeroDivisionError` at the chunk
count); but a negative chunk size is not a configuration error: the chunk
count is non-positive, the execution plan is empty, the script artifacts
are still written, and the process exits 0. -/
theorem chunk_size_validation_amended :
    (∀ (n : ℕ) (args : Args) (ja mem tim : String) (ec : ℕ → ℤ),
      args.chunk_size = 0 →
      main_exit_status n args false ja mem tim ec = 1 ∧
      main_script_files n args false ja mem tim = []) ∧
    (∀ (n : ℕ) (args : Args) (mem tim : String) (ec : ℕ → ℤ),
      args.chunk_size < 0 →
      num_chunks? n args.chunk_size = some ⌈(n : ℚ) / (args.chunk_size : ℚ)⌉ ∧
      ⌈(n : ℚ) / (args.chunk_size : ℚ)⌉ ≤ 0 ∧
      generate_commands args ⌈(n : ℚ) / (args.chunk_size : ℚ)⌉ = [] ∧
      main_exit_status n args false "none" mem tim ec = 0 ∧
      main_script_files n args false "none" mem tim ≠ []) := by
  constructor
  · intro n args ja mem tim ec h0
    constructor <;> simp [main_exit_status, main_script_files, num_chunks?, h0]
  · intro n args mem tim ec hneg
    have hne : args.chunk_size ≠ 0 := by omega
    have hle : ⌈(n : ℚ) / (args.chunk_size : ℚ)⌉ ≤ 0 :=
      ceil_div_neg_nonpos n args.chunk_size hneg
    refine ⟨by simp [num_chunks?, hne], hle, ?_, ?_, ?_⟩
    · rw [generate_commands, Int.toNat_eq_zero.mpr hle]
      rfl
    · simp [main_exit_status, num_chunks?, hne]
    · simp [main_script_files, num_chunks?, hne]

/-- Witness for C7 (amended): chunk size 0 aborts with status 1 and no
artifacts; chunk size -1 with 5 regions leaves an empty plan, scripts on
disk, and exit status 0. -/
theorem chunk_size_validation_amended_witness :
    (main_exit_status 5
      { region_filename := "r", cage_dir := "ca", chromhmm_dir := "ch",
        dnase_chipseq_dir := "dn", rnaseq_dir := "rn", chromhmm_num_states := 1,
        cage_num_experiments := 1, num_features := 1, output_dir := "out",
        chunk_size := 0, log_dir := "log" } false "none" "16G" "12:00:00"
      (fun _ => 0) = 1 ∧
     main_script_files 5
      { region_filename := "r", cage_dir := "ca", chromhmm_dir := "ch",
        dnase_chipseq_dir := "dn", rnaseq_dir := "rn", chromhmm_num_states := 1,
        cage_num_experiments := 1, num_features := 1, output_dir := "out",
        chunk_size := 0, log_dir := "log" } false "none" "16G" "12:00:00" = []) ∧
    (main_exit_status 5
      { region_filename := "r", cage_dir := "ca", chromhmm_dir := "ch",
        dnase_chipseq_dir := "dn", rnaseq_dir := "rn", chromhmm_num_states := 1,
        cage_num_experiments := 1, num_features := 1, output_dir := "out",
        chunk_size := -1, log_dir := "log" } false "none" "16G" "12:00:00"
      (fun _ => 0) = 0 ∧
     main_script_files 5
      { region_filename := "r", cage_dir := "ca", chromhmm_dir := "ch",
        dnase_chipseq_dir := "dn", rnaseq_dir := "rn", chromhmm_num_states := 1,
        cage_num_experiments := 1, num_features := 1, output_dir := "out",
        chunk_size := -1, log_dir := "log" } false "none" "16G" "12:00:00" ≠ []) := by
  refine ⟨chunk_size_validation_amended.1 5 _ "none" "16G" "12:00:00" (fun _ => 0) rfl, ?_, ?_⟩
  · exact (chunk_size_validation_amended.2 5 _ "16G" "12:00:00" (fun _ => 0)
      (by norm_num)).2.2.2.1
  · exact (chunk_size_validation_amended.2 5 _ "16G" "12:00:00" (fun _ => 0)
      (by norm_num)).2.2.2.2

/-- C8: the emitted combine script concatenates the chunk files into the
single species-tagged output; the tag is `h` exactly when the region path
contains the human marker `.h.gz` (else `m`); a human-tagged and a
mouse-tagged output name over the same output directory can never
collide; and the script prints distinct success and failure messages
selected by the concatenation command's own exit status. -/
theorem combine_script_properties :
    (∀ rf : String, species_id rf = "h" ↔ listContainsSub ".h.gz".data rf.data = true) ∧
    (∀ (args : Args) (k : ℤ), combine_targets args = [combined_output args] ∧
      ∃ pre post : String,
        combine_script_content args k = pre ++ combine_cmd args ++ post) ∧
    (∀ a b : Args, a.output_dir = b.output_dir →
      species_id a.region_filename ≠ species_id b.region_filename →
      combined_output a ≠ combined_output b) ∧
    (∀ e : ℤ, combine_message e = "Combination complete." ↔ e = 0) ∧
    (∀ e : ℤ, e ≠ 0 → combine_message e ≠ combine_message 0) := by
  refine ⟨?_, ?_, ?_, ?_, ?_⟩
  · intro rf
    rw [species_id]
    by_cases h : listContainsSub ".h.gz".data rf.data = true
    · rw [if_pos h]
      simp [h]
    · rw [if_neg h]
      constructor
      · intro hmh
        exact absurd hmh (by decide)
      · intro hc
        exact absurd hc h
  · intro args k
    refine ⟨rfl,
      "#!/bin/bash\n\n# Script to combine all processed chunks into a single file\n\n# Create log directory\nmkdir -p log\n\necho \"Combining " ++
        intToDecimalString k ++ " chunks into a single file...\"\n",
      " > log/combine_chunks.log 2>&1\nif [ $? -eq 0 ]; then\n    echo \"Combination complete.\"\nelse\n    echo \"Error during combination. Check log/combine_chunks.log\"\nfi\n", ?_⟩
    simp [combine_script_content, str_append_assoc]
  · intro a b hod hsp hcontra
    apply hsp
    have hd := congrArg String.data hcontra
    simp only [combined_output, hod, str_data_append, List.append_assoc] at hd
    have h1 := List.append_cancel_left hd
    have h2 := List.append_cancel_left h1
    have h3 := List.append_cancel_right h2
    exact str_ext h3
  · intro e
    by_cases h : e = 0
    · subst h
      simp [combine_message]
    · rw [combine_message, if_neg h]
      constructor
      · intro hx
        exact absurd hx (by decide)
      · intro hx
        exact absurd hx h
  · intro e he
    rw [combine_message, combine_message, if_neg he, if_pos rfl]
    decide

/-- Witness for C8: concrete human and mouse region files over the same
output directory give the distinct outputs `out/all.h.gz` and
`out/all.m.gz`, and the failure message for exit status 1 differs from
the success message. -/
theorem combine_script_properties_witness :
    combined_output
      { region_filename := "regions.h.gz", cage_dir := "ca", chromhmm_dir := "ch",
        dnase_chipseq_dir := "dn", rnaseq_dir := "rn", chromhmm_num_states := 1,
        cage_num_experiments := 1, num_features := 1, output_dir := "out",
        chunk_size := 1, log_dir := "log" } ≠
    combined_output
      { region_filename := "regions.m.gz", cage_dir := "ca", chromhmm_dir := "ch",
        dnase_chipseq_dir := "dn", rnaseq_dir := "rn", chromhmm_num_states := 1,
        cage_num_experiments := 1, num_features := 1, output_dir := "out",
        chunk_size := 1, log_dir := "log" } ∧
    combine_message 1 ≠ combine_message 0 := by
  refine ⟨combine_script_properties.2.2.1 _ _ rfl (by decide),
    combine_script_properties.2.2.2.2 1 (by decide)⟩

/-- Counterexample to C9: the marker write of `run_command` for chunk 1
and child PID 42 involves no rename step at all (the claim requires
write-then-visible-rename), and a concurrent reader can observe the
truncated empty file between the open and the content write. -/
theorem marker_write_has_no_rename :
    uses_write_then_rename (marker_write_steps 1 42) (pid_file 1) = false ∧
    uses_write_then_rename (shell_marker_write_steps 1 42) (pid_file 1) = false ∧
    some "" ∈ observable_contents (marker_write_steps 1 42) (pid_file 1) ∧
    natToDecimalString 42 ≠ "" := by
  refine ⟨by decide, by decide, by decide, by decide⟩

/-- C9 as amended: every marker write — `run_command`'s
`open(pid_file, 'w')` / `write(str(pid))` and the scripts'
`echo "$pid" > pid/chunk_<i>.pid` — is a direct truncating write with no
rename step, so a concurrent reader of the marker directory can observe
the half-written (empty) marker before the PID lands in it, the PID
content being nonempty. -/
theorem marker_write_direct_amended (i pid : ℕ) :
    uses_write_then_rename (marker_write_steps i pid) (pid_file i) = false ∧
    uses_write_then_rename (shell_marker_write_steps i pid) (pid_file i) = false ∧
    observable_contents (marker_write_steps i pid) (pid_file i) =
      [none, some "", some (natToDecimalString pid), some (natToDecimalString pid)] ∧
    natToDecimalString pid ≠ "" := by
  refine ⟨?_, ?_, ?_, natToDecimalString_ne_empty pid⟩
  · simp [uses_write_then_rename, marker_write_steps, is_rename_to]
  · simp [uses_write_then_rename, shell_marker_write_steps, is_rename_to]
  · simp [observable_contents, marker_write_steps, step_content, str_empty_append]

/-- C10: in every execution mode the markers live under the fixed
relative directory `pid/`, independently of the configured output and log
directories: `run_command` uses `pid/chunk_<ordinal>.pid` whatever the
log directory; the sequential and parallel local scripts write the
marker lines `pid/chunk_<ordinal>.pid` / `pid/chunk_${chunk_id}.pid`
(their content never mentions the configured directories); and each
cluster array script writes `pid/<scheduler>_<task-index>.pid` for every
log directory. -/
theorem marker_paths_fixed :
    (∀ (i : ℕ) (ld ld' : String),
      (run_command_paths i ld).1 = pid_file i ∧
      (run_command_paths i ld).1 = (run_command_paths i ld').1) ∧
    (∀ i : ℕ, ∃ t : String, pid_file i = "pid/" ++ t) ∧
    (∀ (cmds : List String) (j : ℕ) (c : String), (j, c) ∈ enum1 cmds →
      ∃ pre post : String,
        create_shell_script_sequential cmds = pre ++ seq_marker_line j ++ post) ∧
    (∀ (cmds : List String) (mp : ℕ), ∃ pre post : String,
      create_shell_script_parallel cmds mp = pre ++ par_marker_line ++ post) ∧
    (∀ sched v : String, ∃ t : String, job_array_pid_path sched v = "pid/" ++ t) ∧
    (∀ (cmds : List String) (mem tim ld : String), ∃ s pre post : String,
      (create_job_array_script cmds "slurm" mem tim ld).1 = some s ∧
      s = pre ++ job_array_pid_create "slurm" "SLURM_ARRAY_TASK_ID" ++ post) ∧
    (∀ (cmds : List String) (mem tim ld : String), ∃ s pre post : String,
      (create_job_array_script cmds "sge" mem tim ld).1 = some s ∧
      s = pre ++ job_array_pid_create "sge" "SGE_TASK_ID" ++ post) ∧
    (∀ (cmds : List String) (mem tim ld : String), ∃ s pre post : String,
      (create_job_array_script cmds "lsf" mem tim ld).1 = some s ∧
      s = pre ++ job_array_pid_create "lsf" "LSB_JOBINDEX" ++ post) := by
  refine ⟨fun i ld ld' => ⟨rfl, rfl⟩, ?_, ?_, ?_, ?_, ?_, ?_, ?_⟩
  · intro i
    refine ⟨"chunk_" ++ natToDecimalString i ++ ".pid", str_ext ?_⟩
    simp [pid_file, str_data_append]
  · intro cmds j c hmem
    obtain ⟨s, t, hst⟩ := List.append_of_mem hmem
    refine ⟨shell_header ++ String.join (s.map seq_chunk_block) ++ seq_block_pre j c,
      seq_block_post j ++ String.join (t.map seq_chunk_block) ++ shell_footer, ?_⟩
    rw [create_shell_script_sequential, hst, List.map_append, List.map_cons, str_join_split]
    simp only [seq_chunk_block, str_append_assoc]
  · intro cmds mp
    refine ⟨shell_header ++
      ("# Running commands in parallel (max " ++ natToDecimalString mp ++ " at once)\n") ++
      ("if command -v parallel &> /dev/null; then\n" ++
        "    # Use GNU Parallel with proper logging\n" ++
        "    run_with_parallel() \x7b\n" ++ par_fun_core),
      ("    \x7d\n" ++ "    export -f run_with_parallel\n\n" ++
        "    # Create array of commands\n" ++
        String.join ((enum1 cmds).map
          (fun p => "    cmd" ++ natToDecimalString p.1 ++ "=(" ++ p.2 ++ ")\n")) ++
        "\n    # Run commands with parallel\n" ++
        "    parallel -j " ++ natToDecimalString mp ++ " run_with_parallel \x7b1\x7d \x7b2\x7d ::: " ++
        String.intercalate " " ((enum1 cmds).map
          (fun p => natToDecimalString p.1 ++ " \"$\x7bcmd" ++ natToDecimalString p.1 ++ "[@]\x7d\"")) ++
        "\n") ++ par_fallback_branch cmds mp ++ shell_footer, ?_⟩
    simp only [create_shell_script_parallel, par_gnu_branch, str_append_assoc]
  · intro sched v
    refine ⟨sched ++ "_$\x7b" ++ v ++ "\x7d.pid", ?_⟩
    simp [job_array_pid_path, str_append_assoc]
  · intro cmds mem tim ld
    refine ⟨"#!/bin/bash\n" ++ slurm_directives cmds.length mem tim ld ++
      job_array_pid_create "slurm" "SLURM_ARRAY_TASK_ID" ++
      job_array_body "slurm" "SLURM_ARRAY_TASK_ID" cmds,
      "#!/bin/bash\n" ++ slurm_directives cmds.length mem tim ld,
      job_array_body "slurm" "SLURM_ARRAY_TASK_ID" cmds, ?_, ?_⟩
    · simp [create_job_array_script, show strLower "slurm" = "slurm" from by decide]
    · simp [str_append_assoc]
  · intro cmds mem tim ld
    refine ⟨"#!/bin/bash\n" ++ sge_directives cmds.length mem tim ld ++
      job_array_pid_create "sge" "SGE_TASK_ID" ++
      job_array_body "sge" "SGE_TASK_ID" cmds,
      "#!/bin/bash\n" ++ sge_directives cmds.length mem tim ld,
      job_array_body "sge" "SGE_TASK_ID" cmds, ?_, ?_⟩
    · simp [create_job_array_script, show strLower "sge" = "sge" from by decide,
        show strLower "sge" ≠ "slurm" from by decide]
    · simp [str_append_assoc]
  · intro cmds mem tim ld
    refine ⟨"#!/bin/bash\n" ++ lsf_directives cmds.length mem tim ld ++
      job_array_pid_create "lsf" "LSB_JOBINDEX" ++
      job_array_body "lsf" "LSB_JOBINDEX" cmds,
      "#!/bin/bash\n" ++ lsf_directives cmds.length mem tim ld,
      job_array_body "lsf" "LSB_JOBINDEX" cmds, ?_, ?_⟩
    · simp [create_job_array_script, show strLower "lsf" = "lsf" from by decide,
        show strLower "lsf" ≠ "slurm" from by decide,
        show strLower "lsf" ≠ "sge" from by decide]
    · simp [str_append_assoc]

/-- Witness for C10: the sequential script over one command embeds the
marker line for chunk 1, instantiating the membership hypothesis. -/
theorem marker_paths_fixed_witness :
    ∃ pre post : String,
      create_shell_script_sequential ["c1"] = pre ++ seq_marker_line 1 ++ post :=
  marker_paths_fixed.2.2.1 ["c1"] 1 "c1" (by decide)
